import Mathlib

/-!
# Verification of the noisemaker activity-log subsystem

A shallow embedding of the Go program `noisemaker` (single-file CLI tool):
the activity-log record schema, the CSV codec, the log-store open/rewrite
logic of `main`, and the per-activity classifiers
(`createFile`, `updateFile`, `deleteFile`, `sendMessage`).

Conventions of the embedding:
* Go strings are Lean `String`s; all file contents are treated at character
  granularity (the program only manipulates text).
* A call to `check(err)` with a non-nil error, an out-of-range slice index,
  or a nil-pointer dereference terminates the Go process (panic); a function
  that can panic is embedded with an `Option` result, `none` meaning the
  process died there.
* Operating-system collaborators (`os.Stat`, `os.Create`, `os.Remove`,
  `url.Parse` host extraction, the HTTP transport, process spawning) are
  modelled as explicit outcome parameters, since they are external to the
  program logic under verification.
-/

set_option maxRecDepth 40000

namespace Noisemaker

/-- Go `strings.Join(elems, sep)`. -/
def goJoin (sep : String) : List String → String
  | [] => ""
  | [x] => x
  | x :: xs => x ++ sep ++ goJoin sep xs

/-- Replace every occurrence of the single character `c` by `rep`
(the way `strings.ReplaceAll` behaves for a one-character pattern). -/
def replaceAllChar (s : String) (c : Char) (rep : String) : String :=
  String.mk (s.data.foldr (fun x acc => if x = c then rep.data ++ acc else x :: acc) [])

/-- `escapeRawText` (source line 537): escape commas, then newlines. -/
def escapeRawText (text : String) : String :=
  replaceAllChar (replaceAllChar text ',' "\\,") '\n' "\\n"

/-- `escapeCommandString` (source line 531). -/
def escapeCommandString (cmd : String) (args : List String) : String :=
  escapeRawText (cmd ++ " " ++ goJoin " " args)

/-- Go `strconv.Itoa` on the values this program produces. -/
def goItoa (n : Int) : String := n.repr

/-- Go `strconv.Atoi`: optional sign, decimal digits, 64-bit range check.
`none` is a non-nil error. -/
def goAtoi (s : String) : Option Int :=
  let core : List Char → Int → Option Int := fun digits sign =>
    if digits = [] then none
    else if digits.all Char.isDigit then
      let n : Nat := digits.foldl (fun a c => a * 10 + (c.toNat - 48)) 0
      let v : Int := sign * (n : Int)
      if -(2 ^ 63) ≤ v ∧ v ≤ 2 ^ 63 - 1 then some v else none
    else none
  match s.data with
  | '+' :: rest => core rest 1
  | '-' :: rest => core rest (-1)
  | cs => core cs 1

/-- The canonical header constant `HeaderStr` (source line 23). -/
def HeaderStr : String :=
  "timestamp,activity,os,username,processName,processCmd,pid,path,status,method,sourceAddr,sourcePort,destAddr,destPort,bytesSent,protocol"

/-- `isCSVHeaderStr` (source line 648): exact equality with the header. -/
def isCSVHeaderStr (line : String) : Bool := line == HeaderStr

/-- The `ActivityLogEntry` struct (source lines 25-46). -/
structure ActivityLogEntry where
  timestamp : String
  activity : String
  os : String
  username : String
  processName : String
  processCmd : String
  processId : Int
  path : String
  status : String
  method : String
  sourceAddr : String
  sourcePort : Int
  destAddr : String
  destPort : Int
  bytesSent : Int
  protocol : String
  deriving DecidableEq, Repr

/-- `serializeToCSV` (source lines 441-462): the 16 fields in column order. -/
def serializeToCSV (logInfo : ActivityLogEntry) : List String :=
  [ logInfo.timestamp
  , logInfo.activity
  , logInfo.os
  , logInfo.username
  , logInfo.processName
  , logInfo.processCmd
  , goItoa logInfo.processId
  , logInfo.path
  , logInfo.status
  , logInfo.method
  , logInfo.sourceAddr
  , goItoa logInfo.sourcePort
  , logInfo.destAddr
  , goItoa logInfo.destPort
  , goItoa logInfo.bytesSent
  , logInfo.protocol ]

/-- The line `writeLogEntry` appends for one entry (source lines 525-529):
comma-joined fields plus a newline. -/
def writeLogEntryLine (e : ActivityLogEntry) : String :=
  goJoin "," (serializeToCSV e) ++ "\n"

/-- The CSV line for an entry, without the trailing newline. -/
def encodeLine (e : ActivityLogEntry) : String :=
  goJoin "," (serializeToCSV e)

/-! ## The tokenizer: Go `encoding/csv` on a single line

`splitCSVRow` (source lines 508-515) feeds one scanner line into
`csv.NewReader(...).Read()`. The reader's default configuration applies:
fields are comma-separated; a field beginning with `"` is quoted, with `""`
standing for a literal quote; a bare `"` inside an unquoted field, a
character after a closing quote, or an unterminated quoted field is an
error. Backslashes have no meaning to this reader. An empty input yields
`io.EOF`, which `splitCSVRow` converts to a nil field list and nil error. -/

inductive CsvSt where
  | start  -- at the beginning of a field
  | unq    -- inside an unquoted field
  | inq    -- inside a quoted field
  | postq  -- just after a closing quote
  | err    -- parse error
  deriving DecidableEq, Repr

structure CsvAcc where
  st : CsvSt
  cur : List Char      -- current field, reversed
  acc : List String    -- committed fields, reversed
  deriving DecidableEq, Repr

def csvStep (a : CsvAcc) (c : Char) : CsvAcc :=
  match a.st with
  | .err => a
  | .start =>
    if c = '"' then ⟨.inq, [], a.acc⟩
    else if c = ',' then ⟨.start, [], String.mk a.cur.reverse :: a.acc⟩
    else ⟨.unq, [c], a.acc⟩
  | .unq =>
    if c = '"' then ⟨.err, [], []⟩
    else if c = ',' then ⟨.start, [], String.mk a.cur.reverse :: a.acc⟩
    else ⟨.unq, c :: a.cur, a.acc⟩
  | .inq =>
    if c = '"' then ⟨.postq, a.cur, a.acc⟩
    else ⟨.inq, c :: a.cur, a.acc⟩
  | .postq =>
    if c = '"' then ⟨.inq, '"' :: a.cur, a.acc⟩
    else if c = ',' then ⟨.start, [], String.mk a.cur.reverse :: a.acc⟩
    else ⟨.err, [], []⟩

def csvFinish (a : CsvAcc) : Option (List String) :=
  match a.st with
  | .err => none
  | .inq => none
  | _ => some ((String.mk a.cur.reverse :: a.acc).reverse)

def csvFields (cs : List Char) : Option (List String) :=
  csvFinish (cs.foldl csvStep ⟨.start, [], []⟩)

/-- `splitCSVRow` (source lines 508-515). `none` is a non-nil tokenizer
error; the empty line is the `io.EOF` case, let through as a nil row. -/
def splitCSVRow (rowText : String) : Option (List String) :=
  if rowText.data = [] then some [] else csvFields rowText.data

/-- `deserializeFromCSV` (source lines 465-506). A row with fewer than 16
fields hits `check(fmt.Errorf(...))`, i.e. the process panics: that is the
`none` result. Numeric fields that fail `strconv.Atoi` default to `0`. -/
def deserializeFromCSV (row : List String) : Option ActivityLogEntry :=
  if row.length < 16 then none
  else
    some
      { timestamp := row.getD 0 ""
      , activity := row.getD 1 ""
      , os := row.getD 2 ""
      , username := row.getD 3 ""
      , processName := row.getD 4 ""
      , processCmd := row.getD 5 ""
      , processId := (goAtoi (row.getD 6 "")).getD 0
      , path := row.getD 7 ""
      , status := row.getD 8 ""
      , method := row.getD 9 ""
      , sourceAddr := row.getD 10 ""
      , sourcePort := (goAtoi (row.getD 11 "")).getD 0
      , destAddr := row.getD 12 ""
      , destPort := (goAtoi (row.getD 13 "")).getD 0
      , bytesSent := (goAtoi (row.getD 14 "")).getD 0
      , protocol := row.getD 15 "" }

/-- Tokenize-then-decode of one log line, as the startup scan composes them.
`none` covers both a tokenizer error and the short-row panic. -/
def decodeLine (line : String) : Option ActivityLogEntry :=
  (splitCSVRow line).bind deserializeFromCSV

/-! ## Filesystem collaborator and the file classifiers -/

/-- Outcome of `os.Stat(path)`: success (with the `IsDir` bit of the
returned `FileInfo`), a not-exist error, or any other error
(permission denied on a parent, I/O error, ...). -/
inductive StatResult where
  | ok (isDir : Bool)
  | errNotExist
  | errOther
  deriving DecidableEq, Repr

/-- `fileExists` (source lines 517-523). For an error that is not
not-exist, `info` is nil and `info.IsDir()` dereferences a nil pointer:
the process panics (`none`). -/
def fileExists (stat : StatResult) : Option Bool :=
  match stat with
  | .errNotExist => some false
  | .ok isDir => some (!isDir)
  | .errOther => none

/-- `createFile` (source lines 330-350), over the stat outcome for the
path, the target's current contents (`none` = absent), and the outcomes
of `os.Create` / `WriteString`. Result: `(status, err != nil, contents
of the target afterwards)`; `none` = panic inside `fileExists`.
When `os.Create` or the write fails the on-disk remnant is not consulted
by any theorem; it is modelled as unchanged resp. empty. -/
def createFile (stat : StatResult) (cur : Option String) (contents : String)
    (createOk writeOk : Bool) : Option (String × Bool × Option String) :=
  match fileExists stat with
  | none => none
  | some true => some ("exists", true, cur)
  | some false =>
    if !createOk then some ("error", true, cur)
    else if !writeOk then some ("error", true, some "")
    else some ("created", false, some contents)

/-- `os.OpenFile(path, os.O_RDWR, 0644)` followed by `WriteString` writes
at offset 0 without truncating: the old tail beyond the written prefix
survives. -/
def writeAt0 (old contents : String) : String :=
  contents ++ String.mk (old.data.drop contents.data.length)

/-- `updateFile` (source lines 352-373). Same conventions as `createFile`;
the `O_RDWR` open does not truncate, so a successful update overlays the
new contents on the old (`writeAt0`). -/
def updateFile (stat : StatResult) (cur : Option String) (contents : String)
    (openOk writeOk : Bool) : Option (String × Bool × Option String) :=
  match fileExists stat with
  | none => none
  | some false => some ("not_found", true, cur)
  | some true =>
    if !openOk then some ("error", true, cur)
    else if !writeOk then some ("error", true, cur)
    else some ("updated", false, some (writeAt0 (cur.getD "") contents))

/-- `deleteFile` (source lines 375-390). -/
def deleteFile (stat : StatResult) (cur : Option String)
    (removeOk : Bool) : Option (String × Bool × Option String) :=
  match fileExists stat with
  | none => none
  | some false => some ("not_found", true, cur)
  | some true =>
    if removeOk then some ("deleted", false, none)
    else some ("error", true, cur)

/-! ## The send classifier -/

/-- The `MessageResponse` struct (source lines 49-55). -/
structure MessageResponse where
  sourceAddr : String
  sourcePort : Int
  bytesSent : Int
  status : String
  path : String
  deriving DecidableEq, Repr

/-- `makeErrorResponse` (source lines 417-426). -/
def makeErrorResponse (status path : String) : MessageResponse :=
  { sourceAddr := "", sourcePort := 0, bytesSent := 0, status := status, path := path }

/-- `makeSuccessResponse` (source lines 429-438). -/
def makeSuccessResponse (status sourceAddr : String) (sourcePort bytesSent : Int)
    (path : String) : MessageResponse :=
  { sourceAddr := sourceAddr, sourcePort := sourcePort, bytesSent := bytesSent
  , status := status, path := path }

/-- Outcome of `url.Parse(protocol + "://" + addr)` together with the
`u.Hostname()` it yields: the parse either fails or produces a hostname. -/
inductive UrlParseOutcome where
  | fail
  | ok (hostname : String)
  deriving DecidableEq, Repr

/-- Whether the first list starts with the second. -/
def listStartsWith : List Char → List Char → Bool
  | _, [] => true
  | [], _ :: _ => false
  | c :: rest, p :: ps => c = p && listStartsWith rest ps

/-- Go `strings.Replace(s, pat, rep, 1)` at the character-list level. -/
def listReplaceFirst : List Char → List Char → List Char → List Char
  | [], pat, rep => if pat = [] then rep else []
  | c :: rest, pat, rep =>
    if pat = [] then rep ++ c :: rest
    else if listStartsWith (c :: rest) pat then rep ++ (c :: rest).drop pat.length
    else c :: listReplaceFirst rest pat rep

/-- Go `strings.Replace(s, pat, rep, 1)`. -/
def goReplaceFirst (s pat rep : String) : String :=
  String.mk (listReplaceFirst s.data pat.data rep.data)

/-- `injectPortIntoAddress` (source lines 622-639). For `http`/`https` the
hostname of the parsed URL gets `:port` appended in the first occurrence
inside `addr`; any other protocol is a non-nil error before parsing. -/
def injectPortIntoAddress (addr : String) (port : Int) (protocol : String)
    (parse : UrlParseOutcome) : Option String :=
  if protocol = "http" ∨ protocol = "https" then
    match parse with
    | .fail => none
    | .ok host => some (goReplaceFirst addr host (host ++ ":" ++ goItoa port))
  else none

/-- Result of `sendHttpMessage` (source lines 543-613) when it is invoked,
as a function of the URL it is handed: the response and whether the
returned error was non-nil. The transport is an external collaborator. -/
def HttpTransport := String → MessageResponse × Bool

/-- `sendMessage` (source lines 393-410). The third component records
whether `sendHttpMessage` was invoked at all (`false` = classification
ended before any connection attempt or network I/O). -/
def sendMessage (method destAddr : String) (destPort : Int) (protocol : String)
    (body : String) (parse : UrlParseOutcome) (http : HttpTransport) :
    MessageResponse × Bool × Bool :=
  let _ := method
  let _ := body
  match injectPortIntoAddress destAddr destPort protocol parse with
  | none =>
    let invalidPathStr :=
      "path " ++ destAddr ++ " port " ++ goItoa destPort ++ " protocol " ++ protocol
    (makeErrorResponse "invalid_address" invalidPathStr, true, false)
  | some destAddrWithPort =>
    let path := protocol ++ "://" ++ destAddrWithPort
    if protocol = "http" ∨ protocol = "https" then
      let r := http path
      (r.1, r.2, true)
    else
      (makeErrorResponse "unknown_protocol" path, true, false)

/-! ## The dispatcher: the `switch command` of `main` (source lines 192-323) -/

/-- Outcome of `startProcess` (source lines 654-706): `check` panics on an
unresolvable path, a failed spawn and a failed wait, so only the two final
shapes return to `main`. -/
inductive ExecOutcome where
  | resolveFail
  | spawnFail
  | waitFail
  | okState (pid : Int) (stateStr : String)
  | okNoState (pid : Int)

/-- The bundle of external-collaborator outcomes one invocation observes. -/
structure World where
  stat : String → StatResult
  fileAt : String → Option String
  createOk : Bool
  writeOk : Bool
  openRWOk : Bool
  removeOk : Bool
  exec : ExecOutcome
  urlParse : UrlParseOutcome
  http : HttpTransport

/-- The entry populated before the switch (source lines 182-189): context
fields set, everything else the zero value. -/
def buildBaseEntry (timestamp osName username processName : String) (pid : Int)
    (command : String) (args : List String) : ActivityLogEntry :=
  { timestamp := timestamp, activity := command, os := osName
  , username := username, processName := processName
  , processCmd := escapeCommandString command args, processId := pid
  , path := "", status := "", method := "", sourceAddr := "", sourcePort := 0
  , destAddr := "", destPort := 0, bytesSent := 0, protocol := "" }

/-- The `switch command` of `main` (source lines 192-323): classification of
the invocation into the finished entry. `none` = the process panicked
(missing-argument `check`, slice index out of range, collaborator failure
routed through `check`, or the `default` branch) before `writeLogEntry`. -/
def runSwitch (command : String) (args : List String) (base : ActivityLogEntry)
    (w : World) : Option ActivityLogEntry :=
  if command = "execute" then
    match args with
    | [] => none
    | procCmd :: procArgs =>
      let base := { base with processCmd := escapeCommandString procCmd procArgs }
      match w.exec with
      | .resolveFail => none
      | .spawnFail => none
      | .waitFail => none
      | .okState pid st => some { base with processId := pid, status := st }
      | .okNoState pid => some { base with processId := pid, status := "unable_to_run" }
  else if command = "create" then
    if args.length < 1 then none
    else
      let path := args.getD 0 ""
      let contents := args.getD 1 ""
      match createFile (w.stat path) (w.fileAt path) contents w.createOk w.writeOk with
      | none => none
      | some (status, errB, _) =>
        some { base with status := if errB then status else "created" }
  else if command = "update" then
    if args.length < 2 then none
    else
      let path := args.getD 0 ""
      let contents := args.getD 1 ""
      match updateFile (w.stat path) (w.fileAt path) contents w.openRWOk w.writeOk with
      | none => none
      | some (status, errB, _) =>
        some { base with status := if errB then status else "updated" }
  else if command = "delete" then
    if args.length < 1 then none
    else
      let path := args.getD 0 ""
      match deleteFile (w.stat path) (w.fileAt path) w.removeOk with
      | none => none
      | some (status, errB, _) =>
        some { base with status := if errB then status else "deleted" }
  else if command = "send" then
    if args.length < 2 then none
    else
      let method := args.getD 0 ""
      let destAddr := args.getD 1 ""
      match (if args.length > 2 then goAtoi (args.getD 2 "") else some 80) with
      | none => none
      | some destPort =>
        let protocol := if args.length > 3 then args.getD 3 "" else "http"
        let data := if args.length > 4 then args.getD 4 "" else ""
        let base := { base with
          method := method
          destAddr := destAddr
          destPort := destPort
          protocol := protocol }
        let r := sendMessage method destAddr destPort protocol data w.urlParse w.http
        let resp := r.1
        let errB := r.2.1
        some { base with
          status := if errB then resp.status else "sent"
          path := resp.path
          sourceAddr := resp.sourceAddr
          sourcePort := resp.sourcePort
          bytesSent := resp.bytesSent }
  else if command = "help" then some base
  else none

/-! ## The log store: startup scan, open mode, rewrite (source lines 100-179) -/

/-- A scanner line accumulator is reversed; `bufio.ScanLines` drops one
trailing carriage return per line. -/
def dropCRrev (cur : List Char) : List Char :=
  match cur with
  | '\r' :: t => t
  | _ => cur

/-- `bufio.Scanner` line splitting: lines separated by a newline, one
trailing CR stripped per line, a final unterminated line kept if nonempty. -/
def scanLinesGo : List Char → List Char → List String
  | [], [] => []
  | [], cur => [String.mk (dropCRrev cur).reverse]
  | '\n' :: rest, cur => String.mk (dropCRrev cur).reverse :: scanLinesGo rest []
  | c :: rest, cur => scanLinesGo rest (c :: cur)

/-- The lines a `bufio.Scanner` yields for a file's contents. -/
def goScanLines (s : String) : List String := scanLinesGo s.data []

/-- The first-line handling of the startup scan (source lines 106-123):
a header contributes nothing; otherwise the line is tokenized — a tokenizer
error is only printed, leaving a nil row — and then decoded, where a row of
fewer than 16 fields panics the process (`none`). -/
def scanFirstRow (first : String) : Option (List ActivityLogEntry) :=
  if isCSVHeaderStr first then some []
  else
    let row := (splitCSVRow first).getD []
    match deserializeFromCSV row with
    | none => none
    | some e => some [e]

/-- The row loop of the startup scan (source lines 126-143): a tokenizer
error skips the line (`continue`); a row of fewer than 16 fields panics the
process inside `deserializeFromCSV` (`none`). -/
def scanRemainingRows : List String → Option (List ActivityLogEntry)
  | [] => some []
  | l :: ls =>
    match splitCSVRow l with
    | none => scanRemainingRows ls
    | some row =>
      match deserializeFromCSV row with
      | none => none
      | some e => (scanRemainingRows ls).map (fun es => e :: es)

/-- The whole startup scan over the lines the scanner yields. -/
def scanExistingLog : List String → Option (List ActivityLogEntry)
  | [] => some []
  | first :: rest =>
    (scanFirstRow first).bind (fun h => (scanRemainingRows rest).map (fun es => h ++ es))

/-- The recovery phase of `main` (source lines 100-148). The guard on the
scan block is the source's `activityLogFileExists && err != nil` (line 104),
with `err` the result of the read-only open; when the open failed, the
scanner reads from an invalid handle and yields no lines. -/
def mainRecoverEntries (logExists peekOpenOk : Bool) (logContent : String) :
    Option (List ActivityLogEntry) :=
  let peekLines := if peekOpenOk then goScanLines logContent else []
  if logExists && !peekOpenOk then scanExistingLog peekLines else some []

/-- The three open modes of source lines 153-165. -/
inductive OpenMode where
  | append     -- O_APPEND | O_CREATE | O_WRONLY
  | rdwr       -- O_RDWR | O_CREATE (no O_TRUNC)
  | createNew  -- os.Create (O_RDWR | O_CREATE | O_TRUNC)
  deriving DecidableEq, Repr

/-- The effect of the sequential `WriteString` calls on the file, per open
mode: append writes after the old contents; the read-write open positions
at offset 0 and does not truncate, so the old tail beyond the written
prefix survives; `os.Create` truncates. -/
def applyWrites : OpenMode → String → String → String
  | .append, old, w => old ++ w
  | .rdwr, old, w => w ++ String.mk (old.data.drop w.data.length)
  | .createNew, _, w => w

/-- Outcome of one invocation's interaction with the log file. -/
structure LogResult where
  content : String      -- the log file's contents when the process ends
  newAppended : Nat     -- how many times the final `writeLogEntry` (line 322) ran
  fatal : Bool          -- the process panicked
  deriving DecidableEq, Repr

/-- The log-store pipeline of `main` (source lines 100-179 and 322):
recovery scan, open-mode decision, historical rewrite, and the single
`writeLogEntry` for the new entry. `outcome` is the classification result
(`none` = the switch panicked after any historical rewrite). `openOk` is
the write-open of lines 155-164 (`check(err)` at 166 on failure). -/
def mainLogFile (logExists overwrite peekOpenOk openOk : Bool)
    (logContent : String) (outcome : Option ActivityLogEntry) : LogResult :=
  match mainRecoverEntries logExists peekOpenOk logContent with
  | none => ⟨logContent, 0, true⟩
  | some recovered =>
    let modeHist : OpenMode × Bool :=
      if logExists && !overwrite then (.append, false)
      else if logExists && overwrite then (.rdwr, true)
      else (.createNew, true)
    if !openOk then ⟨logContent, 0, true⟩
    else
      let written :=
        if modeHist.2 then HeaderStr ++ "\n" ++ String.join (recovered.map writeLogEntryLine)
        else ""
      match outcome with
      | none => ⟨applyWrites modeHist.1 logContent written, 0, true⟩
      | some e => ⟨applyWrites modeHist.1 logContent (written ++ writeLogEntryLine e), 1, false⟩

/-- One whole invocation against the log file: classification composed with
the log store. -/
def mainInvocation (overwrite logExists peekOpenOk openOk : Bool)
    (logContent : String) (command : String) (args : List String)
    (base : ActivityLogEntry) (w : World) : LogResult :=
  mainLogFile logExists overwrite peekOpenOk openOk logContent
    (runSwitch command args base w)

/-! ## Concrete data used by the scenario theorems and witnesses -/

/-- An HTTP transport whose requests all succeed. -/
def sampleTransport : HttpTransport :=
  fun path => (makeSuccessResponse "sent" "192.168.1.67" 52680 12 path, false)

/-- A collaborator world: `./exists.txt` is a regular file with known
contents, every other path reports not-exist, and every operation the OS
is asked for succeeds. -/
def sampleWorld : World :=
  { stat := fun p => if p = "./exists.txt" then .ok false else .errNotExist
  , fileAt := fun p => if p = "./exists.txt" then some "old contents" else none
  , createOk := true
  , writeOk := true
  , openRWOk := true
  , removeOk := true
  , exec := .okState 7 "exit status 0"
  , urlParse := .ok "example.com"
  , http := sampleTransport }

/-- A dispatcher-populated base entry. -/
def sampleEntry : ActivityLogEntry :=
  buildBaseEntry "2024-11-05T16:20:14-06:00" "linux" "root" "/bin/noisemaker"
    1234 "create" ["./exists.txt"]

/-- A well-formed 16-field data row (a `create` outcome). -/
def sampleRowFields : List String :=
  [ "2024-11-05T16:20:26-06:00", "create", "linux", "root", "/bin/noisemaker"
  , "create ./a.txt", "1040", "", "created", "", "", "0", "", "0", "0", "" ]

/-- The CSV line of `sampleRowFields`. -/
def sampleRowLine : String := goJoin "," sampleRowFields

/-- A second well-formed 16-field data row (a `delete` outcome). -/
def c1Row2 : String :=
  "2024-11-05T16:21:23-06:00,delete,linux,root,/bin/noisemaker,delete ./a.txt,19480,,deleted,,,0,,0,0,"

/-- A corrupted row: two fields only. -/
def c1Corrupt : String := "corrupt,row"

/-- A pre-existing log file: header, one valid row, one corrupted row, one
more valid row (N = 2 valid rows). -/
def c1OldContent : String :=
  HeaderStr ++ "\n" ++ sampleRowLine ++ "\n" ++ c1Corrupt ++ "\n" ++ c1Row2 ++ "\n"

/-- The new record of the overwrite-mode invocation in the C1 scenario. -/
def c1NewEntry : ActivityLogEntry := { sampleEntry with status := "created" }

/-- 16 fields whose `processCmd` contains a backslash-escaped comma, exactly
what `escapeRawText` produces for a command string with a comma. -/
def c9Fields : List String :=
  [ "2024-11-05T16:20:14-06:00", "execute", "linux", "root", "/bin/noisemaker"
  , "echo a\\,b", "42", "", "exit status 0", "", "", "0", "", "0", "0", "" ]

/-- The CSV line of `c9Fields`. -/
def c9Line : String := goJoin "," c9Fields

/-! ## Helper lemmas -/

theorem string_data_append (a b : String) : (a ++ b).data = a.data ++ b.data := rfl

theorem string_append_nil (s : String) : s ++ "" = s := by
  cases s with
  | mk d =>
    show String.mk (d ++ []) = String.mk d
    rw [List.append_nil]

/-- The startup scan of `main` never recovers an entry: the scan block is
guarded by `activityLogFileExists && err != nil` (source line 104), so it
only runs when the read-only open failed, and then the scanner has no
lines to yield. -/
theorem mainRecoverEntries_eq_nil (logExists peekOpenOk : Bool) (content : String) :
    mainRecoverEntries logExists peekOpenOk content = some [] := by
  unfold mainRecoverEntries
  cases logExists <;> cases peekOpenOk <;> simp [scanExistingLog]

/-! ## The claims -/

/-- C10: `fileExists` returns `false` both for a nonexistent path and for
an existing directory; on any other `os.Stat` error it dereferences a nil
`FileInfo` and panics, so the create/update/delete classifiers are total
exactly when `Stat` on the target succeeds or reports not-exist. -/
theorem claim_C10_fileExists_totality (d a b r : Bool) (cur : Option String) (c : String) :
    fileExists StatResult.errNotExist = some false ∧
    fileExists (StatResult.ok true) = some false ∧
    fileExists (StatResult.ok d) = some (!d) ∧
    fileExists StatResult.errOther = none ∧
    createFile StatResult.errOther cur c a b = none ∧
    updateFile StatResult.errOther cur c a b = none ∧
    deleteFile StatResult.errOther cur r = none ∧
    (createFile (StatResult.ok d) cur c a b).isSome = true ∧
    (createFile StatResult.errNotExist cur c a b).isSome = true ∧
    (updateFile (StatResult.ok d) cur c a b).isSome = true ∧
    (updateFile StatResult.errNotExist cur c a b).isSome = true ∧
    (deleteFile (StatResult.ok d) cur r).isSome = true ∧
    (deleteFile StatResult.errNotExist cur r).isSome = true := by
  cases d <;> cases a <;> cases b <;> cases r <;>
    simp [fileExists, createFile, updateFile, deleteFile]

/-- C7: a create invocation whose target exists as a regular file gets
status `exists`, with the classifier performing no write and leaving the
target's contents untouched. -/
theorem claim_C7_create_exists (base : ActivityLogEntry) (w : World) (p c cur : String)
    (hstat : w.stat p = StatResult.ok false) (hfile : w.fileAt p = some cur) :
    createFile (w.stat p) (w.fileAt p) c w.createOk w.writeOk
      = some ("exists", true, some cur) ∧
    runSwitch "create" [p, c] base w = some { base with status := "exists" } := by
  constructor
  · rw [hstat, hfile]
    simp [createFile, fileExists]
  · simp [runSwitch, hstat, hfile, createFile, fileExists]

/-- Witness for C7 at a concrete world and path. -/
theorem claim_C7_create_exists_witness :
    runSwitch "create" ["./exists.txt", "x"] sampleEntry sampleWorld
      = some { sampleEntry with status := "exists" } :=
  (claim_C7_create_exists sampleEntry sampleWorld "./exists.txt" "x" "old contents"
    (by decide) (by decide)).2

/-- C8: update and delete invocations whose target does not exist get
status `not_found`, and no file is created at the target path. -/
theorem claim_C8_not_found (base : ActivityLogEntry) (w : World) (p c : String)
    (hstat : w.stat p = StatResult.errNotExist) (hfile : w.fileAt p = none) :
    updateFile (w.stat p) (w.fileAt p) c w.openRWOk w.writeOk
      = some ("not_found", true, none) ∧
    deleteFile (w.stat p) (w.fileAt p) w.removeOk = some ("not_found", true, none) ∧
    runSwitch "update" [p, c] base w = some { base with status := "not_found" } ∧
    runSwitch "delete" [p] base w = some { base with status := "not_found" } := by
  refine ⟨?_, ?_, ?_, ?_⟩
  · rw [hstat, hfile]; simp [updateFile, fileExists]
  · rw [hstat, hfile]; simp [deleteFile, fileExists]
  · simp [runSwitch, hstat, hfile, updateFile, fileExists]
  · simp [runSwitch, hstat, hfile, deleteFile, fileExists]

/-- Witness for C8 at a concrete world and path. -/
theorem claim_C8_not_found_witness :
    runSwitch "update" ["./missing-file", "x"] sampleEntry sampleWorld
      = some { sampleEntry with status := "not_found" } :=
  (claim_C8_not_found sampleEntry sampleWorld "./missing-file" "x"
    (by decide) (by decide)).2.2.1

/-- C2: a log line of fewer than 16 fields does not produce a recoverable
parse error: `deserializeFromCSV` routes it through `check`, panicking the
process, and during the startup row scan such a line aborts the scan of
all remaining lines (the same remaining line alone scans fine). -/
theorem claim_C2_short_row_panics :
    splitCSVRow "corrupt,row" = some ["corrupt", "row"] ∧
    (deserializeFromCSV ["corrupt", "row"]).isNone = true ∧
    (scanRemainingRows ["corrupt,row", sampleRowLine]).isNone = true ∧
    (scanRemainingRows [sampleRowLine]).isSome = true := by
  refine ⟨by decide, by decide, by decide, by decide⟩

/-- C6: an update invocation with exactly one argument is rejected by the
code's `len(commandArgs) < 2` check: the process panics before any
activity, for every collaborator world, including one where the target
exists. -/
theorem claim_C6_update_one_arg_fatal (base : ActivityLogEntry) (w : World) :
    runSwitch "update" ["./exists.txt"] base w = none := by
  simp [runSwitch]

/-- C3: in append mode (file exists, no `-overwrite`) the bytes already in
the log file are never altered: a fatal open or a panicking classification
leaves the file as it was, and a successful invocation's only mutation is
the single new record appended at the end. -/
theorem claim_C3_append_frame (content : String) (pk : Bool) (e : ActivityLogEntry)
    (outcome : Option ActivityLogEntry) :
    (mainLogFile true false pk false content outcome).content = content ∧
    (mainLogFile true false pk true content none).content = content ∧
    (mainLogFile true false pk true content (some e)).content
        = content ++ writeLogEntryLine e ∧
    (mainLogFile true false pk true content (some e)).newAppended = 1 := by
  refine ⟨?_, ?_, ?_, ?_⟩ <;>
    · unfold mainLogFile
      rw [mainRecoverEntries_eq_nil]
      simp [applyWrites, string_append_nil]

/-- C4: the final `writeLogEntry` runs exactly once per completed
invocation and zero times when the process panics; the missing-argument
checks of create/update/delete/send and the `default` branch for an
unrecognized activity all panic before it. -/
theorem claim_C4_one_record (cmd : String) (args : List String)
    (base : ActivityLogEntry) (w : World) (content : String) (ov ex pk ok : Bool) :
    ((mainInvocation ov ex pk ok content cmd args base w).fatal = false →
       (mainInvocation ov ex pk ok content cmd args base w).newAppended = 1) ∧
    ((mainInvocation ov ex pk ok content cmd args base w).fatal = true →
       (mainInvocation ov ex pk ok content cmd args base w).newAppended = 0) ∧
    (runSwitch cmd args base w = none →
       (mainInvocation ov ex pk ok content cmd args base w).fatal = true) ∧
    runSwitch "create" [] base w = none ∧
    runSwitch "update" [] base w = none ∧
    runSwitch "delete" [] base w = none ∧
    runSwitch "send" ["GET"] base w = none ∧
    (cmd ≠ "execute" → cmd ≠ "create" → cmd ≠ "update" → cmd ≠ "delete" →
     cmd ≠ "send" → cmd ≠ "help" → runSwitch cmd args base w = none) := by
  refine ⟨?_, ?_, ?_, ?_, ?_, ?_, ?_, ?_⟩
  · unfold mainInvocation mainLogFile
    rw [mainRecoverEntries_eq_nil]
    cases ok <;> cases h : runSwitch cmd args base w <;> simp
  · unfold mainInvocation mainLogFile
    rw [mainRecoverEntries_eq_nil]
    cases ok <;> cases h : runSwitch cmd args base w <;> simp
  · intro h
    unfold mainInvocation mainLogFile
    rw [mainRecoverEntries_eq_nil, h]
    cases ok <;> simp
  · simp [runSwitch]
  · simp [runSwitch]
  · simp [runSwitch]
  · simp [runSwitch]
  · intro h1 h2 h3 h4 h5 h6
    simp [runSwitch, h1, h2, h3, h4, h5, h6]

/-- Witness for C4: an unrecognized activity name panics before the log
append, and the invocation appends no record. -/
theorem claim_C4_one_record_witness :
    runSwitch "frobnicate" [] sampleEntry sampleWorld = none ∧
    (mainInvocation false true true true "" "frobnicate" [] sampleEntry sampleWorld).fatal
      = true := by
  have h := claim_C4_one_record "frobnicate" [] sampleEntry sampleWorld "" false true true true
  have hnone := h.2.2.2.2.2.2.2 (by decide) (by decide) (by decide) (by decide)
    (by decide) (by decide)
  exact ⟨hnone, h.2.2.1 hnone⟩

/-- C5 counterexample: a send with protocol `ftp` is not logged as
`unknown_protocol` — `injectPortIntoAddress` already fails for any
non-http(s) protocol, so `sendMessage` returns the `invalid_address`
error response and the `unknown_protocol` branch is unreachable. -/
theorem claim_C5_counterexample :
    ((sendMessage "GET" "example.com" 80 "ftp" "" (UrlParseOutcome.ok "example.com")
        sampleTransport).1.status == "unknown_protocol") = false := by
  decide

/-- C5 (amended): for a send whose protocol is neither `http` nor `https`,
classification produces the error response with status `invalid_address`,
zero bytes sent, and the HTTP transport is never invoked; the dispatcher
records that status and `bytesSent = 0`. -/
theorem claim_C5_unknown_protocol (method destAddr : String) (destPort : Int)
    (protocol body : String) (parse : UrlParseOutcome) (http : HttpTransport)
    (base : ActivityLogEntry) (w : World)
    (h1 : protocol ≠ "http") (h2 : protocol ≠ "https") :
    sendMessage method destAddr destPort protocol body parse http
      = (makeErrorResponse "invalid_address"
          ("path " ++ destAddr ++ " port " ++ goItoa destPort ++ " protocol " ++ protocol),
         true, false) ∧
    runSwitch "send" [method, destAddr, "80", protocol] base w
      = some { base with
          method := method
          destAddr := destAddr
          destPort := 80
          protocol := protocol
          status := "invalid_address"
          path := "path " ++ destAddr ++ " port " ++ goItoa (80 : Int)
                  ++ " protocol " ++ protocol
          sourceAddr := ""
          sourcePort := 0
          bytesSent := 0 } := by
  have h80 : goAtoi "80" = some 80 := by decide
  constructor
  · simp [sendMessage, injectPortIntoAddress, h1, h2]
  · simp [runSwitch, h80, sendMessage, injectPortIntoAddress, h1, h2, makeErrorResponse]

/-- Witness for C5 at protocol `ftp`. -/
theorem claim_C5_unknown_protocol_witness :
    sendMessage "GET" "example.com" 80 "ftp" "" (UrlParseOutcome.ok "example.com")
        sampleTransport
      = (makeErrorResponse "invalid_address" "path example.com port 80 protocol ftp",
         true, false) := by
  have h := (claim_C5_unknown_protocol "GET" "example.com" 80 "ftp" ""
    (UrlParseOutcome.ok "example.com") sampleTransport sampleEntry sampleWorld
    (by decide) (by decide)).1
  rw [h]
  rfl

/-- C1: the overwrite-mode rebuild does not happen as specified. The prior
file holds two individually decodable rows and one corrupted row, yet the
recovery scan — guarded by `err != nil` on the read-only open — recovers
nothing, and the `O_RDWR | O_CREATE` open does not truncate, so the
resulting file is not the canonical header plus the two recovered rows
plus the new record. -/
theorem claim_C1_overwrite_loses_history :
    (decodeLine sampleRowLine).isSome = true ∧
    (decodeLine c1Row2).isSome = true ∧
    (decodeLine c1Corrupt).isSome = false ∧
    mainRecoverEntries true true c1OldContent = some [] ∧
    ((mainLogFile true true true true c1OldContent (some c1NewEntry)).content
       == HeaderStr ++ "\n" ++ sampleRowLine ++ "\n" ++ c1Row2 ++ "\n"
          ++ writeLogEntryLine c1NewEntry) = false := by
  refine ⟨by decide, by decide, by decide, by decide, by decide⟩

/-! ## Round-trip lemmas for the CSV tokenizer -/

theorem foldl_csvStep_unq (cs : List Char) (h : ∀ c ∈ cs, c ≠ ',' ∧ c ≠ '"')
    (cur : List Char) (acc : List String) :
    List.foldl csvStep ⟨.unq, cur, acc⟩ cs = ⟨.unq, cs.reverse ++ cur, acc⟩ := by
  induction cs generalizing cur with
  | nil => simp
  | cons c rest ih =>
    have hc := h c (by simp)
    have hrest : ∀ x ∈ rest, x ≠ ',' ∧ x ≠ '"' := fun x hx => h x (by simp [hx])
    rw [List.foldl_cons]
    show List.foldl csvStep (csvStep ⟨.unq, cur, acc⟩ c) rest = _
    rw [show csvStep ⟨.unq, cur, acc⟩ c = ⟨.unq, c :: cur, acc⟩ by
      simp [csvStep, hc.1, hc.2]]
    rw [ih hrest (c :: cur)]
    simp

theorem foldl_csvStep_start_cons (c : Char) (rest : List Char)
    (h : ∀ x ∈ c :: rest, x ≠ ',' ∧ x ≠ '"') (acc : List String) :
    List.foldl csvStep ⟨.start, [], acc⟩ (c :: rest)
      = ⟨.unq, (c :: rest).reverse, acc⟩ := by
  have hc := h c (by simp)
  have hrest : ∀ x ∈ rest, x ≠ ',' ∧ x ≠ '"' := fun x hx => h x (by simp [hx])
  rw [List.foldl_cons]
  show List.foldl csvStep (csvStep ⟨.start, [], acc⟩ c) rest = _
  rw [show csvStep ⟨.start, [], acc⟩ c = ⟨.unq, [c], acc⟩ by
    simp [csvStep, hc.1, hc.2]]
  rw [foldl_csvStep_unq rest hrest [c]]
  simp

theorem goJoin_comma_data (x y : String) (t : List String) :
    (goJoin "," (x :: y :: t)).data = x.data ++ ',' :: (goJoin "," (y :: t)).data := by
  show (x ++ "," ++ goJoin "," (y :: t)).data = _
  rw [string_data_append, string_data_append]
  simp

theorem csvFinish_foldl_join (F : List String) (acc : List String) (hne : F ≠ [])
    (hclean : ∀ f ∈ F, ∀ c ∈ f.data, c ≠ ',' ∧ c ≠ '"') :
    csvFinish (List.foldl csvStep ⟨.start, [], acc⟩ (goJoin "," F).data)
      = some (acc.reverse ++ F) := by
  induction F generalizing acc with
  | nil => exact absurd rfl hne
  | cons x rest ih =>
    cases rest with
    | nil =>
      show csvFinish (List.foldl csvStep ⟨.start, [], acc⟩ x.data)
        = some (acc.reverse ++ [x])
      cases hx : x.data with
      | nil =>
        have hx0 : x = "" := by
          cases x with
          | mk d =>
            have : d = [] := hx
            rw [this]
        subst hx0
        simp [csvFinish]
      | cons c cs =>
        have hcl : ∀ ch ∈ x.data, ch ≠ ',' ∧ ch ≠ '"' := hclean x (by simp)
        rw [hx] at hcl
        rw [foldl_csvStep_start_cons c cs hcl acc]
        simp [csvFinish]
        rw [← hx]
    | cons y t =>
      rw [goJoin_comma_data, List.foldl_append]
      have hxcl : ∀ ch ∈ x.data, ch ≠ ',' ∧ ch ≠ '"' := hclean x (by simp)
      have htcl : ∀ f ∈ y :: t, ∀ c ∈ f.data, c ≠ ',' ∧ c ≠ '"' :=
        fun f hf => hclean f (by simp [hf])
      have hstep : List.foldl csvStep (List.foldl csvStep ⟨.start, [], acc⟩ x.data)
          (',' :: (goJoin "," (y :: t)).data)
            = List.foldl csvStep ⟨.start, [], x :: acc⟩ (goJoin "," (y :: t)).data := by
        cases hx : x.data with
        | nil =>
          have hx0 : x = "" := by
            cases x with
            | mk d =>
              have hd : d = [] := hx
              rw [hd]
          rw [hx0]
          rfl
        | cons c cs =>
          rw [hx] at hxcl
          rw [foldl_csvStep_start_cons c cs hxcl acc, List.foldl_cons]
          have hmk : csvStep ⟨.unq, (c :: cs).reverse, acc⟩ ','
              = ⟨.start, [], x :: acc⟩ := by
            show CsvAcc.mk .start [] (String.mk (c :: cs).reverse.reverse :: acc)
              = CsvAcc.mk .start [] (x :: acc)
            rw [List.reverse_reverse, ← hx]
          rw [hmk]
      rw [hstep, ih (x :: acc) (by simp) htcl]
      simp

/-- Tokenizing the comma-join of at least two comma-free, quote-free fields
recovers exactly those fields. -/
theorem splitCSVRow_clean_join (x y : String) (t : List String)
    (hclean : ∀ f ∈ x :: y :: t, ∀ c ∈ f.data, c ≠ ',' ∧ c ≠ '"') :
    splitCSVRow (goJoin "," (x :: y :: t)) = some (x :: y :: t) := by
  have hne : (goJoin "," (x :: y :: t)).data ≠ [] := by
    rw [goJoin_comma_data]
    simp
  unfold splitCSVRow csvFields
  rw [if_neg hne]
  have h := csvFinish_foldl_join (x :: y :: t) [] (by simp) hclean
  simpa using h

/-- C9 counterexample: the line serialized from fields whose `processCmd`
holds a backslash-escaped comma (exactly what the codec's own escaping
produces) does not round-trip: the tokenizer `encoding/csv` gives the
backslash no meaning, splits inside the escaped comma, and re-serialization
yields a different line. -/
theorem claim_C9_counterexample :
    ((decodeLine c9Line).map encodeLine == some c9Line) = false := by
  decide

/-- C9 (amended): `encode(decode(line)) == line` holds for every 16-field
line whose fields contain no comma (escaped or not), no double quote, no CR
and no LF, and whose four numeric fields (`pid`, `sourcePort`, `destPort`,
`bytesSent`) are canonical decimal integers (fixed points of
`Itoa ∘ Atoi`); the backslash escaping is write-only, so escaped commas are
excluded rather than covered. -/
theorem claim_C9_roundtrip (f0 f1 f2 f3 f4 f5 f6 f7 f8 f9 f10 f11 f12 f13 f14 f15 : String)
    (hclean : ∀ f ∈ [f0, f1, f2, f3, f4, f5, f6, f7, f8, f9, f10, f11, f12, f13, f14, f15],
      ∀ c ∈ f.data, c ≠ ',' ∧ c ≠ '"' ∧ c ≠ '\n' ∧ c ≠ '\r')
    (h6 : goItoa ((goAtoi f6).getD 0) = f6)
    (h11 : goItoa ((goAtoi f11).getD 0) = f11)
    (h13 : goItoa ((goAtoi f13).getD 0) = f13)
    (h14 : goItoa ((goAtoi f14).getD 0) = f14) :
    (decodeLine (goJoin "," [f0, f1, f2, f3, f4, f5, f6, f7, f8, f9, f10, f11, f12, f13, f14, f15])).map encodeLine
      = some (goJoin "," [f0, f1, f2, f3, f4, f5, f6, f7, f8, f9, f10, f11, f12, f13, f14, f15]) := by
  have hcl : ∀ f ∈ [f0, f1, f2, f3, f4, f5, f6, f7, f8, f9, f10, f11, f12, f13, f14, f15],
      ∀ c ∈ f.data, c ≠ ',' ∧ c ≠ '"' :=
    fun f hf c hc => ⟨(hclean f hf c hc).1, (hclean f hf c hc).2.1⟩
  unfold decodeLine
  rw [splitCSVRow_clean_join f0 f1 _ hcl]
  show (deserializeFromCSV [f0, f1, f2, f3, f4, f5, f6, f7, f8, f9, f10, f11, f12, f13, f14, f15]).map encodeLine = _
  simp [deserializeFromCSV, encodeLine, serializeToCSV, List.getD, h6, h11, h13, h14]

/-- Witness for C9 at a concrete well-formed row. -/
theorem claim_C9_roundtrip_witness :
    (decodeLine (goJoin "," sampleRowFields)).map encodeLine
      = some (goJoin "," sampleRowFields) := by
  have h := claim_C9_roundtrip "2024-11-05T16:20:26-06:00" "create" "linux" "root"
    "/bin/noisemaker" "create ./a.txt" "1040" "" "created" "" "" "0" "" "0" "0" ""
    (by decide) (by decide) (by decide) (by decide) (by decide)
  exact h

end Noisemaker
